import Mathlib

/-!
Shallow embedding of the `gancio-py` client library
(`gancio_py/client.py` and `gancio_py/exceptions.py`).

HTTP traffic is modelled by passing the server's `Response` to each
operation explicitly; `response.json()` payloads that the library merely
forwards are modelled by extra parameters carrying the parsed value.
Python dicts used as payloads are modelled as ordered association lists
(insertion order, fresh keys appended), which matches dict semantics for
the access patterns the library uses.
-/

namespace GancioPy

/-- An HTTP response as seen by the client.  `method` and `path_url` are the
fields of `response.request` used in the error message. -/
structure Response where
  status_code : Nat
  text : String
  method : String
  path_url : String
deriving DecidableEq, Repr

/-- `requests.Response.ok`: true iff the status code is below 400. -/
def Response.ok (r : Response) : Bool :=
  r.status_code < 400

/-- `GancioError` from `gancio_py/exceptions.py`: status code, raw body and
the formatted message. -/
structure GancioError where
  status_code : Nat
  response_body : String
  message : String
deriving DecidableEq, Repr

/-- `GancioError.__init__(response)`. -/
def GancioError.ofResponse (r : Response) : GancioError :=
  { status_code := r.status_code
    response_body := r.text
    message := r.method ++ " " ++ r.path_url ++ " -> "
      ++ toString r.status_code ++ ": " ++ r.text }

/-- Client state: the three data fields of the `Gancio` class
(the logger is not modelled). -/
structure Gancio where
  url : String
  access_token : Option String
  refresh_token : Option String
deriving DecidableEq, Repr

/-- Python's `str.rstrip("/")`: remove every trailing slash. -/
def rstripSlash (s : String) : String :=
  ⟨(s.data.reverse.dropWhile (fun c => c = '/')).reverse⟩

/-- `Gancio.__init__(url, access_token=None)`. -/
def Gancio.init (url : String) (access_token : Option String) : Gancio :=
  { url := rstripSlash url
    access_token := access_token
    refresh_token := none }

/-- Python dict assignment `d[k] = v` on a string-valued dict: replace in
place if the key exists, else append. -/
def setKey (l : List (String × String)) (k v : String) : List (String × String) :=
  if (l.map Prod.fst).contains k then
    l.map (fun p => if p.1 = k then (k, v) else p)
  else
    l ++ [(k, v)]

/-- The header assembly of `Gancio._request`: the `Authorization` header is
added exactly when `self.access_token` is truthy (present and non-empty). -/
def Gancio.requestHeaders (c : Gancio) (headers : List (String × String)) :
    List (String × String) :=
  match c.access_token with
  | some t => if t = "" then headers else setKey headers "Authorization" ("Bearer " ++ t)
  | none => headers

/-- The full request URL built by `Gancio._request`. -/
def Gancio.requestUrl (c : Gancio) (path : String) : String :=
  c.url ++ path

/-- The error/return logic of `Gancio._request`: raise `GancioError(response)`
when `not response.ok`, otherwise return the response. -/
def Gancio.request (_c : Gancio) (r : Response) : Except GancioError Response :=
  if r.ok then .ok r else .error (GancioError.ofResponse r)

/-- A Python float passed through verbatim (never computed on by the
library); modelled opaquely by its decimal literal. -/
structure Flt where
  lit : String
deriving DecidableEq, Repr

/-- An `io.BytesIO` image buffer, modelled by its byte contents. -/
structure BytesIO where
  contents : List Nat
deriving DecidableEq, Repr

/-- A JSON value, as handed to `json.dumps` for the `recurrent` field. -/
inductive Json where
  | null : Json
  | bool (b : Bool) : Json
  | num (n : Int) : Json
  | str (s : String) : Json
  | arr (xs : List Json) : Json
  | obj (kvs : List (String × Json)) : Json

/-- One character of Python's JSON string escaping. -/
def jsonEscapeChar (c : Char) : List Char :=
  if c = '\\' then ['\\', '\\']
  else if c = '"' then ['\\', '"']
  else if c = '\n' then ['\\', 'n']
  else if c = '\t' then ['\\', 't']
  else if c = '\r' then ['\\', 'r']
  else if c.toNat < 32 then
    ['\\', 'u', '0', '0',
      (if c.toNat / 16 < 10 then Char.ofNat (48 + c.toNat / 16) else Char.ofNat (87 + c.toNat / 16)),
      (if c.toNat % 16 < 10 then Char.ofNat (48 + c.toNat % 16) else Char.ofNat (87 + c.toNat % 16))]
  else [c]

/-- Python's JSON escaping of a string body. -/
def jsonEscape (s : String) : String :=
  ⟨s.data.flatMap jsonEscapeChar⟩

mutual

/-- `json.dumps` with Python's default separators. -/
def Json.dumps : Json → String
  | .null => "null"
  | .bool true => "true"
  | .bool false => "false"
  | .num n => toString n
  | .str s => "\"" ++ jsonEscape s ++ "\""
  | .arr xs => "[" ++ Json.dumpsArr xs ++ "]"
  | .obj kvs => "\x7b" ++ Json.dumpsObj kvs ++ "\x7d"

/-- Comma-joined array elements for `json.dumps`. -/
def Json.dumpsArr : List Json → String
  | [] => ""
  | [x] => Json.dumps x
  | x :: y :: t => Json.dumps x ++ ", " ++ Json.dumpsArr (y :: t)

/-- Comma-joined object entries for `json.dumps`. -/
def Json.dumpsObj : List (String × Json) → String
  | [] => ""
  | [(k, v)] => "\"" ++ jsonEscape k ++ "\": " ++ Json.dumps v
  | (k, v) :: y :: t =>
      "\"" ++ jsonEscape k ++ "\": " ++ Json.dumps v ++ ", " ++ Json.dumpsObj (y :: t)

end

/-- A value stored in a request payload (query params or form data). -/
inductive Value where
  | str (s : String) : Value
  | int (n : Int) : Value
  | float (x : Flt) : Value
  | bool (b : Bool) : Value
  | strlist (xs : List String) : Value
deriving DecidableEq, Repr

/-- One `if x is not None: d[k] = v` step of payload assembly. -/
def optEntry (k : String) (v : Option Value) : List (String × Value) :=
  match v with
  | some x => [(k, x)]
  | none => []

/-- The keys of a payload. -/
def keys (l : List (String × Value)) : List String :=
  l.map Prod.fst

/-- The `db` dict built by `Gancio.setup_db` (sent as the JSON body
`\x7b"db": db\x7d`); Python defaults are `dialect='sqlite'`,
`storage='/opt/gancio/db.sqlite'`. -/
def setup_db_db (dialect storage : String) : List (String × Value) :=
  [("dialect", Value.str dialect)]
  ++ (if dialect = "sqlite" then [("storage", Value.str storage)] else [])

/-- `Gancio.setup_db`: POSTs the db config; returns nothing. -/
def Gancio.setup_db (c : Gancio) (_dialect _storage : String) (r : Response) :
    Gancio × Except GancioError Unit :=
  (c, (Gancio.request c r).map (fun _ => ()))

/-- `Gancio.setup_restart`: returns `response.json()` (left undecoded). -/
def Gancio.setup_restart (c : Gancio) (r : Response) :
    Gancio × Except GancioError Response :=
  (c, Gancio.request c r)

/-- The fields of the login `response.json()` used by `Gancio.login`. -/
structure LoginData where
  access_token : String
  refresh_token : String
  username : String
deriving DecidableEq, Repr

/-- The URL-encoded form sent by `Gancio.login`. -/
def loginForm (username password : String) : List (String × Value) :=
  [("username", Value.str username), ("password", Value.str password),
   ("grant_type", Value.str "password"), ("client_id", Value.str "self")]

/-- `Gancio.login`: `d` models `response.json()`.  In the source the token
assignments run only after `_request` has returned successfully, so when
`GancioError` propagates the client fields still hold the prior values. -/
def Gancio.login (c : Gancio) (r : Response) (d : LoginData) :
    Gancio × Except GancioError LoginData :=
  match Gancio.request c r with
  | .error e => (c, .error e)
  | .ok _ =>
      ({ c with access_token := some d.access_token
                refresh_token := some d.refresh_token }, .ok d)

/-- `Gancio.get_user`: returns `response.json()` (left undecoded). -/
def Gancio.get_user (c : Gancio) (r : Response) :
    Gancio × Except GancioError Response :=
  (c, Gancio.request c r)

/-- The optional filters of `Gancio.get_events` (`end_` models `end`). -/
structure GetEventsArgs where
  start : Option Int
  end_ : Option Int
  tags : Option (List String)
  places : Option (List String)
  query : Option String
  max : Option Int
  page : Option Int
  show_recurrent : Option Bool
  show_multidate : Option Bool
deriving DecidableEq, Repr

/-- The query-parameter dict built by `Gancio.get_events`. -/
def getEventsParams (a : GetEventsArgs) : List (String × Value) :=
  optEntry "start" (a.start.map Value.int)
  ++ optEntry "end" (a.end_.map Value.int)
  ++ optEntry "tags" (a.tags.map Value.strlist)
  ++ optEntry "places" (a.places.map Value.strlist)
  ++ optEntry "query" (a.query.map Value.str)
  ++ optEntry "max" (a.max.map Value.int)
  ++ optEntry "page" (a.page.map Value.int)
  ++ optEntry "show_recurrent" (a.show_recurrent.map Value.bool)
  ++ optEntry "show_multidate" (a.show_multidate.map Value.bool)

/-- `Gancio.get_events`: returns the response (JSON list left undecoded). -/
def Gancio.get_events (c : Gancio) (_a : GetEventsArgs) (r : Response) :
    Gancio × Except GancioError Response :=
  (c, Gancio.request c r)

/-- `Gancio.get_event`: fetch one event by slug. -/
def Gancio.get_event (c : Gancio) (_slug : String) (r : Response) :
    Gancio × Except GancioError Response :=
  (c, Gancio.request c r)

/-- The arguments of `Gancio.create_event`: four required fields, the rest
optional (`None` default in the source). -/
structure CreateEventArgs where
  title : String
  start_datetime : Int
  place_name : String
  place_address : String
  description : Option String
  end_datetime : Option Int
  place_latitude : Option Flt
  place_longitude : Option Flt
  tags : Option (List String)
  online_locations : Option (List String)
  image : Option BytesIO
  image_url : Option String
  multidate : Option Bool
  recurrent : Option Json

/-- The multipart form-data dict built by `Gancio.create_event`. -/
def createEventData (a : CreateEventArgs) : List (String × Value) :=
  [("title", Value.str a.title),
   ("start_datetime", Value.int a.start_datetime),
   ("place_name", Value.str a.place_name),
   ("place_address", Value.str a.place_address)]
  ++ optEntry "description" (a.description.map Value.str)
  ++ optEntry "end_datetime" (a.end_datetime.map Value.int)
  ++ optEntry "place_latitude" (a.place_latitude.map Value.float)
  ++ optEntry "place_longitude" (a.place_longitude.map Value.float)
  ++ optEntry "tags[]" (a.tags.map Value.strlist)
  ++ optEntry "online_locations[]" (a.online_locations.map Value.strlist)
  ++ optEntry "image_url" (a.image_url.map Value.str)
  ++ optEntry "multidate" (a.multidate.map Value.bool)
  ++ optEntry "recurrent" (a.recurrent.map (fun j => Value.str (Json.dumps j)))

/-- A part of the `files` argument of a multipart request. -/
inductive FilePart where
  | buf (b : BytesIO) : FilePart
  | pair (filename content : String) : FilePart
deriving DecidableEq, Repr

/-- `files = dict(image=image) if image else \x7b'placeholder': ('', '')\x7d`
in `create_event` (a `BytesIO` object is always truthy, so truthiness
coincides with being supplied). -/
def createEventFiles (image : Option BytesIO) : List (String × FilePart) :=
  match image with
  | some b => [("image", FilePart.buf b)]
  | none => [("placeholder", FilePart.pair "" "")]

/-- `Gancio.create_event`: returns the response (JSON left undecoded). -/
def Gancio.create_event (c : Gancio) (_a : CreateEventArgs) (r : Response) :
    Gancio × Except GancioError Response :=
  (c, Gancio.request c r)

/-- The arguments of `Gancio.update_event`: required id, rest optional. -/
structure UpdateEventArgs where
  event_id : Int
  title : Option String
  start_datetime : Option Int
  place_name : Option String
  place_address : Option String
  description : Option String
  end_datetime : Option Int
  place_latitude : Option Flt
  place_longitude : Option Flt
  tags : Option (List String)
  online_locations : Option (List String)
  image : Option BytesIO
  image_url : Option String
  multidate : Option Bool
  recurrent : Option Json

/-- The multipart form-data dict built by `Gancio.update_event`. -/
def updateEventData (a : UpdateEventArgs) : List (String × Value) :=
  [("id", Value.int a.event_id)]
  ++ optEntry "title" (a.title.map Value.str)
  ++ optEntry "start_datetime" (a.start_datetime.map Value.int)
  ++ optEntry "place_name" (a.place_name.map Value.str)
  ++ optEntry "place_address" (a.place_address.map Value.str)
  ++ optEntry "description" (a.description.map Value.str)
  ++ optEntry "end_datetime" (a.end_datetime.map Value.int)
  ++ optEntry "place_latitude" (a.place_latitude.map Value.float)
  ++ optEntry "place_longitude" (a.place_longitude.map Value.float)
  ++ optEntry "tags[]" (a.tags.map Value.strlist)
  ++ optEntry "online_locations[]" (a.online_locations.map Value.strlist)
  ++ optEntry "image_url" (a.image_url.map Value.str)
  ++ optEntry "multidate" (a.multidate.map Value.bool)
  ++ optEntry "recurrent" (a.recurrent.map (fun j => Value.str (Json.dumps j)))

/-- The `files` dict of `update_event` (same expression as in
`create_event`, duplicated in the source). -/
def updateEventFiles (image : Option BytesIO) : List (String × FilePart) :=
  match image with
  | some b => [("image", FilePart.buf b)]
  | none => [("placeholder", FilePart.pair "" "")]

/-- The keys of a `files` dict. -/
def filesKeys (l : List (String × FilePart)) : List String :=
  l.map Prod.fst

/-- `Gancio.update_event`: returns the response (JSON left undecoded). -/
def Gancio.update_event (c : Gancio) (_a : UpdateEventArgs) (r : Response) :
    Gancio × Except GancioError Response :=
  (c, Gancio.request c r)

/-- `Gancio.delete_event`: returns nothing. -/
def Gancio.delete_event (c : Gancio) (_event_id : Int) (r : Response) :
    Gancio × Except GancioError Unit :=
  (c, (Gancio.request c r).map (fun _ => ()))

/-- `Gancio.confirm_event`: returns nothing. -/
def Gancio.confirm_event (c : Gancio) (_event_id : Int) (r : Response) :
    Gancio × Except GancioError Unit :=
  (c, (Gancio.request c r).map (fun _ => ()))

/-- A place record as returned by the places API. -/
structure Place where
  name : String
deriving DecidableEq, Repr

/-- `Gancio.search_place`: `results` models the decoded `response.json()`
list. -/
def Gancio.search_place (c : Gancio) (_query : String) (r : Response)
    (results : List Place) : Gancio × Except GancioError (List Place) :=
  (c, (Gancio.request c r).map (fun _ => results))

/-- `Gancio.get_place`: `results[0] if results else None` over
`search_place`. -/
def Gancio.get_place (c : Gancio) (place_name : String) (r : Response)
    (results : List Place) : Gancio × Except GancioError (Option Place) :=
  match Gancio.search_place c place_name r results with
  | (c2, Except.error e) => (c2, Except.error e)
  | (c2, Except.ok res) => (c2, Except.ok res.head?)

/-- `Gancio.get_place_events`: converts a 404 `GancioError` into `None`,
re-raises any other error, returns the response otherwise. -/
def Gancio.get_place_events (c : Gancio) (_place_name : String) (r : Response) :
    Gancio × Except GancioError (Option Response) :=
  match Gancio.request c r with
  | .ok resp => (c, .ok (some resp))
  | .error e => if e.status_code = 404 then (c, .ok none) else (c, .error e)

/-- The form-data dict built by `Gancio.update_page`. -/
def updatePageData (content : String) (title : Option String)
    (visible : Option Bool) : List (String × Value) :=
  [("content", Value.str content)]
  ++ optEntry "title" (title.map Value.str)
  ++ optEntry "visible" (visible.map Value.bool)

/-- `Gancio.update_page`: returns the response (JSON left undecoded). -/
def Gancio.update_page (c : Gancio) (_page_id : Int) (_content : String)
    (_title : Option String) (_visible : Option Bool) (r : Response) :
    Gancio × Except GancioError Response :=
  (c, Gancio.request c r)

/-! ### Concrete fixtures used by witnesses and counterexamples -/

/-- A fresh client against a test instance. -/
def clientA : Gancio :=
  { url := "http://gancio.test", access_token := none, refresh_token := none }

/-- A successful response. -/
def resp200 : Response :=
  { status_code := 200, text := "[]", method := "GET", path_url := "/api/events" }

/-- A not-found response. -/
def resp404 : Response :=
  { status_code := 404, text := "not found", method := "GET", path_url := "/api/place/x" }

/-- A server-error response. -/
def resp500 : Response :=
  { status_code := 500, text := "Internal Server Error", method := "POST",
    path_url := "/oauth/login" }

/-- A login payload. -/
def loginDataA : LoginData :=
  { access_token := "tok", refresh_token := "ref", username := "admin" }

/-- A `get_events` call with every filter omitted. -/
def getEventsNone : GetEventsArgs :=
  { start := none, end_ := none, tags := none, places := none, query := none,
    max := none, page := none, show_recurrent := none, show_multidate := none }

/-- A `create_event` call with every optional argument omitted. -/
def createEventReq : CreateEventArgs :=
  { title := "E", start_datetime := 1700000000, place_name := "P", place_address := "A",
    description := none, end_datetime := none, place_latitude := none,
    place_longitude := none, tags := none, online_locations := none, image := none,
    image_url := none, multidate := none, recurrent := none }

/-- An `update_event` call with every optional argument omitted. -/
def updateEventReq : UpdateEventArgs :=
  { event_id := 7, title := none, start_datetime := none, place_name := none,
    place_address := none, description := none, end_datetime := none,
    place_latitude := none, place_longitude := none, tags := none,
    online_locations := none, image := none, image_url := none, multidate := none,
    recurrent := none }

/-! ### Helper lemmas -/

lemma keys_append (xs ys : List (String × Value)) :
    keys (xs ++ ys) = keys xs ++ keys ys :=
  List.map_append _ _ _

lemma keys_cons (k : String) (v : Value) (l : List (String × Value)) :
    keys ((k, v) :: l) = k :: keys l :=
  rfl

lemma keys_nil : keys [] = [] :=
  rfl

lemma mem_keys_optEntry (k k' : String) (v : Option Value) :
    k ∈ keys (optEntry k' v) ↔ (k = k' ∧ v.isSome = true) := by
  cases v <;> simp [optEntry, keys]

lemma isSome_map_eq {α β : Type} (f : α → β) (o : Option α) :
    (o.map f).isSome = o.isSome := by
  cases o <;> rfl

lemma mem_setKey (l : List (String × String)) (k v : String) :
    (k, v) ∈ setKey l k v := by
  unfold setKey
  split
  · rename_i hc
    have hk : k ∈ l.map Prod.fst := List.elem_iff.mp hc
    obtain ⟨p, hp, hpk⟩ := List.mem_map.mp hk
    refine List.mem_map.mpr ⟨p, hp, ?_⟩
    simp [hpk]
  · exact List.mem_append.mpr (Or.inr (by simp))

/-! ### Claims -/

/-- Claim C6, as stated: the stored base URL equals the input with exactly
one trailing slash removed when the input ends in a slash, unchanged
otherwise.  Counterexample: `"http://h//"` is stored as `"http://h"`, both
trailing slashes removed, not `"http://h/"`. -/
theorem claim_C6_counterexample :
    (Gancio.init "http://h//" none).url = "http://h" ∧
    (Gancio.init "http://h//" none).url ≠ "http://h/" := by
  constructor
  · rfl
  · decide

/-- Claim C6 (amended): the stored base URL is the input with every trailing
slash removed: the input splits as the stored URL followed by some number of
slashes, the stored URL does not end in a slash, and an input with no
trailing slash is stored unchanged. -/
theorem claim_C6_amended (u : String) (t : Option String) :
    (∃ k, u.data = (Gancio.init u t).url.data ++ List.replicate k '/') ∧
    (Gancio.init u t).url.data.getLast? ≠ some '/' ∧
    (u.data.getLast? ≠ some '/' → (Gancio.init u t).url = u) := by
  refine ⟨?_, ?_, ?_⟩
  · refine ⟨(u.data.reverse.takeWhile (fun c => c = '/')).length, ?_⟩
    have hsplit := List.takeWhile_append_dropWhile (fun c : Char => decide (c = '/'))
      (l := u.data.reverse)
    have hrep : u.data.reverse.takeWhile (fun c : Char => decide (c = '/')) =
        List.replicate (u.data.reverse.takeWhile
          (fun c : Char => decide (c = '/'))).length '/' := by
      apply List.eq_replicate_of_mem
      intro b hb
      have hpb := List.mem_takeWhile_imp hb
      exact of_decide_eq_true hpb
    calc u.data = u.data.reverse.reverse := (List.reverse_reverse _).symm
      _ = (u.data.reverse.takeWhile (fun c : Char => decide (c = '/')) ++
            u.data.reverse.dropWhile (fun c : Char => decide (c = '/'))).reverse := by
            rw [hsplit]
      _ = (u.data.reverse.dropWhile (fun c : Char => decide (c = '/'))).reverse ++
            (u.data.reverse.takeWhile (fun c : Char => decide (c = '/'))).reverse := by
            rw [List.reverse_append]
      _ = (Gancio.init u t).url.data ++
            List.replicate (u.data.reverse.takeWhile (fun c => c = '/')).length '/' := by
            show _ = (rstripSlash u).data ++ _
            unfold rstripSlash
            conv_lhs => rw [hrep, List.reverse_replicate]
  · show (rstripSlash u).data.getLast? ≠ some '/'
    have hdata : (rstripSlash u).data =
        (u.data.reverse.dropWhile (fun c : Char => decide (c = '/'))).reverse := rfl
    rw [hdata, List.getLast?_reverse]
    have h := List.head?_dropWhile_not (fun c : Char => decide (c = '/')) u.data.reverse
    intro hcon
    rw [hcon] at h
    simp at h
  · intro hlast
    show rstripSlash u = u
    unfold rstripSlash
    cases hrev : u.data.reverse with
    | nil =>
      have hu : u = ⟨[]⟩ := by
        cases u with
        | mk d =>
          exact congrArg String.mk (by simpa using congrArg List.reverse hrev)
      rw [hu]
      rfl
    | cons a tl =>
      have ha : ¬ (a = '/') := by
        intro hga
        apply hlast
        rw [← List.head?_reverse, hrev]
        simp [hga]
      rw [List.dropWhile_cons_of_neg (by simpa using ha), ← hrev,
        List.reverse_reverse]

/-- Witness for the amended C6 at a concrete URL with no trailing slash. -/
theorem claim_C6_amended_witness :
    (Gancio.init "http://gancio.test" none).url = "http://gancio.test" :=
  (claim_C6_amended "http://gancio.test" none).2.2 (by decide)

/-- Claim C1, as stated ("every client operation raises" on status ≥ 400):
counterexample: `get_place_events` on a 404 response returns `None` instead
of raising, even though 404 ≥ 400. -/
theorem claim_C1_counterexample :
    400 ≤ resp404.status_code ∧
    Gancio.get_place_events clientA "x" resp404 = (clientA, Except.ok none) := by
  constructor
  · decide
  · rfl

/-- Claim C1 (amended): on a response with status ≥ 400, every client
operation raises the single error type carrying exactly the response's
status code and body text — except `get_place_events`, which returns `None`
for status 404 and re-raises the error for any other failing status; on a
response with status < 400 the error is not raised. -/
theorem claim_C1_amended (c : Gancio) (r : Response)
    (d s slug q pn content : String) (ld : LoginData) (a : GetEventsArgs)
    (ca : CreateEventArgs) (ua : UpdateEventArgs) (eid pid : Int)
    (ti : Option String) (vis : Option Bool) (results : List Place) :
    (400 ≤ r.status_code →
      (GancioError.ofResponse r).status_code = r.status_code ∧
      (GancioError.ofResponse r).response_body = r.text ∧
      Gancio.request c r = .error (GancioError.ofResponse r) ∧
      (Gancio.setup_db c d s r).2 = .error (GancioError.ofResponse r) ∧
      (Gancio.setup_restart c r).2 = .error (GancioError.ofResponse r) ∧
      (Gancio.login c r ld).2 = .error (GancioError.ofResponse r) ∧
      (Gancio.get_user c r).2 = .error (GancioError.ofResponse r) ∧
      (Gancio.get_events c a r).2 = .error (GancioError.ofResponse r) ∧
      (Gancio.get_event c slug r).2 = .error (GancioError.ofResponse r) ∧
      (Gancio.create_event c ca r).2 = .error (GancioError.ofResponse r) ∧
      (Gancio.update_event c ua r).2 = .error (GancioError.ofResponse r) ∧
      (Gancio.delete_event c eid r).2 = .error (GancioError.ofResponse r) ∧
      (Gancio.confirm_event c eid r).2 = .error (GancioError.ofResponse r) ∧
      (Gancio.search_place c q r results).2 = .error (GancioError.ofResponse r) ∧
      (Gancio.get_place c pn r results).2 = .error (GancioError.ofResponse r) ∧
      (Gancio.update_page c pid content ti vis r).2 = .error (GancioError.ofResponse r) ∧
      (r.status_code ≠ 404 →
        (Gancio.get_place_events c pn r).2 = .error (GancioError.ofResponse r)) ∧
      (r.status_code = 404 → (Gancio.get_place_events c pn r).2 = .ok none)) ∧
    (r.status_code < 400 → Gancio.request c r = .ok r) := by
  constructor
  · intro h
    have hok : r.ok = false := by
      have : ¬ r.status_code < 400 := by omega
      simp [Response.ok, this]
    refine ⟨rfl, rfl, ?_, ?_, ?_, ?_, ?_, ?_, ?_, ?_, ?_, ?_, ?_, ?_, ?_, ?_, ?_, ?_⟩
    · simp [Gancio.request, hok]
    · simp [Gancio.setup_db, Gancio.request, hok, Except.map]
    · simp [Gancio.setup_restart, Gancio.request, hok]
    · simp [Gancio.login, Gancio.request, hok]
    · simp [Gancio.get_user, Gancio.request, hok]
    · simp [Gancio.get_events, Gancio.request, hok]
    · simp [Gancio.get_event, Gancio.request, hok]
    · simp [Gancio.create_event, Gancio.request, hok]
    · simp [Gancio.update_event, Gancio.request, hok]
    · simp [Gancio.delete_event, Gancio.request, hok, Except.map]
    · simp [Gancio.confirm_event, Gancio.request, hok, Except.map]
    · simp [Gancio.search_place, Gancio.request, hok, Except.map]
    · simp [Gancio.get_place, Gancio.search_place, Gancio.request, hok, Except.map]
    · simp [Gancio.update_page, Gancio.request, hok]
    · intro h404
      simp [Gancio.get_place_events, Gancio.request, hok, GancioError.ofResponse, h404]
    · intro h404
      simp [Gancio.get_place_events, Gancio.request, hok, GancioError.ofResponse, h404]
  · intro h
    simp [Gancio.request, Response.ok, h]

/-- Witness for the amended C1: the error branch at a concrete 500, the
404 branch of `get_place_events`, and the success branch at a concrete 200. -/
theorem claim_C1_amended_witness :
    (Gancio.login clientA resp500 loginDataA).2 = .error (GancioError.ofResponse resp500) ∧
    (Gancio.get_place_events clientA "x" resp500).2 = .error (GancioError.ofResponse resp500) ∧
    (Gancio.get_place_events clientA "x" resp404).2 = .ok none ∧
    Gancio.request clientA resp200 = .ok resp200 := by
  refine ⟨?_, ?_, ?_, ?_⟩
  · exact ((claim_C1_amended clientA resp500 "sqlite" "/opt/gancio/db.sqlite" "slug" "q" "x"
      "body" loginDataA getEventsNone createEventReq updateEventReq 7 1 none none []).1
      (by decide)).2.2.2.2.2.1
  · exact (((claim_C1_amended clientA resp500 "sqlite" "/opt/gancio/db.sqlite" "slug" "q" "x"
      "body" loginDataA getEventsNone createEventReq updateEventReq 7 1 none none []).1
      (by decide)).2.2.2.2.2.2.2.2.2.2.2.2.2.2.2.2.1) (by decide)
  · exact (((claim_C1_amended clientA resp404 "sqlite" "/opt/gancio/db.sqlite" "slug" "q" "x"
      "body" loginDataA getEventsNone createEventReq updateEventReq 7 1 none none []).1
      (by decide)).2.2.2.2.2.2.2.2.2.2.2.2.2.2.2.2.2) (by decide)
  · exact (claim_C1_amended clientA resp200 "sqlite" "/opt/gancio/db.sqlite" "slug" "q" "x"
      "body" loginDataA getEventsNone createEventReq updateEventReq 7 1 none none []).2
      (by decide)

/-- Claim C3, as stated ("every subsequent request made while an access
token is stored includes the bearer header"): counterexample: a successful
login whose response carries the empty string as access token stores it, yet
the next request attaches no `Authorization` header, because the header is
only added for a truthy token. -/
theorem claim_C3_counterexample :
    (Gancio.login clientA resp200
      { access_token := "", refresh_token := "ref", username := "admin" }).1.access_token
      = some "" ∧
    Gancio.requestHeaders
      (Gancio.login clientA resp200
        { access_token := "", refresh_token := "ref", username := "admin" }).1 [] = [] := by
  constructor
  · rfl
  · rfl

/-- Claim C3 (amended): a successful login stores both returned tokens on
the client, and every subsequent request made while a stored access token is
non-empty includes the header `Authorization: Bearer <stored access
token>`. -/
theorem claim_C3_amended (c : Gancio) (r : Response) (d : LoginData)
    (c2 : Gancio) (t : String) (hs : List (String × String)) :
    (r.ok = true →
      (Gancio.login c r d).1.access_token = some d.access_token ∧
      (Gancio.login c r d).1.refresh_token = some d.refresh_token) ∧
    (c2.access_token = some t → t ≠ "" →
      ("Authorization", "Bearer " ++ t) ∈ Gancio.requestHeaders c2 hs) := by
  constructor
  · intro hok
    unfold Gancio.login Gancio.request
    simp [hok]
  · intro hc ht
    unfold Gancio.requestHeaders
    rw [hc]
    simp only [ht, if_false]
    exact mem_setKey hs "Authorization" ("Bearer " ++ t)

/-- Witness for the amended C3: a concrete successful login followed by a
request that carries the bearer header. -/
theorem claim_C3_amended_witness :
    ((Gancio.login clientA resp200 loginDataA).1.access_token = some "tok" ∧
      (Gancio.login clientA resp200 loginDataA).1.refresh_token = some "ref") ∧
    ("Authorization", "Bearer " ++ "tok") ∈ Gancio.requestHeaders
      { url := "http://gancio.test", access_token := some "tok", refresh_token := none }
      [("Accept", "application/json")] := by
  constructor
  · exact (claim_C3_amended clientA resp200 loginDataA clientA "tok" []).1 (by decide)
  · exact (claim_C3_amended clientA resp200 loginDataA
      { url := "http://gancio.test", access_token := some "tok", refresh_token := none }
      "tok" [("Accept", "application/json")]).2 (by rfl) (by decide)

/-- Claim C4: `get_place_events` returns `None` exactly when the underlying
request fails with status 404, re-raises the identical error for any other
failing status, and `get_place` returns `None` exactly when `search_place`
yields no results. -/
theorem claim_C4 (c : Gancio) (pn q : String) (r : Response)
    (results : List Place) :
    ((Gancio.get_place_events c pn r).2 = .ok none ↔ r.status_code = 404) ∧
    (400 ≤ r.status_code → r.status_code ≠ 404 →
      (Gancio.get_place_events c pn r).2 = .error (GancioError.ofResponse r)) ∧
    (r.ok = true →
      ((Gancio.get_place c q r results).2 = .ok none ↔ results = [])) := by
  refine ⟨?_, ?_, ?_⟩
  · constructor
    · intro h
      by_cases h404 : r.status_code = 404
      · exact h404
      · exfalso
        unfold Gancio.get_place_events Gancio.request at h
        by_cases hok : r.ok
        · simp [hok] at h
        · simp [hok, GancioError.ofResponse, h404] at h
    · intro h404
      have hok : r.ok = false := by
        simp [Response.ok, h404]
      unfold Gancio.get_place_events Gancio.request
      simp [hok, GancioError.ofResponse, h404]
  · intro h h404
    have hok : r.ok = false := by
      have : ¬ r.status_code < 400 := by omega
      simp [Response.ok, this]
    unfold Gancio.get_place_events Gancio.request
    simp [hok, GancioError.ofResponse, h404]
  · intro hok
    unfold Gancio.get_place Gancio.search_place Gancio.request
    simp [hok, Except.map, List.head?_eq_none_iff]

/-- Witness for C4: the 404, the 500 and the empty-result branches at
concrete inputs. -/
theorem claim_C4_witness :
    ((Gancio.get_place_events clientA "x" resp404).2 = .ok none ↔
      resp404.status_code = 404) ∧
    (Gancio.get_place_events clientA "x" resp500).2
      = .error (GancioError.ofResponse resp500) ∧
    ((Gancio.get_place clientA "x" resp200 []).2 = .ok none ↔ ([] : List Place) = []) := by
  refine ⟨?_, ?_, ?_⟩
  · exact (claim_C4 clientA "x" "x" resp404 []).1
  · exact (claim_C4 clientA "x" "x" resp500 []).2.1 (by decide) (by decide)
  · exact (claim_C4 clientA "x" "x" resp200 []).2.2 (by decide)

/-- Claim C7: `get_place` returns the first `search_place` result when the
result list is non-empty and `None` (without raising) when it is empty. -/
theorem claim_C7 (c : Gancio) (q : String) (r : Response)
    (results : List Place) (p : Place) (tl : List Place) :
    (r.ok = true → (Gancio.get_place c q r results).2 = .ok results.head?) ∧
    (r.ok = true → results = [] → (Gancio.get_place c q r results).2 = .ok none) ∧
    (r.ok = true → results = p :: tl → (Gancio.get_place c q r results).2 = .ok (some p)) := by
  have hbase : r.ok = true → (Gancio.get_place c q r results).2 = .ok results.head? := by
    intro hok
    unfold Gancio.get_place Gancio.search_place Gancio.request
    simp [hok, Except.map]
  refine ⟨hbase, ?_, ?_⟩
  · intro hok hres
    rw [hbase hok, hres]
    rfl
  · intro hok hres
    rw [hbase hok, hres]
    rfl

/-- Witness for C7 at a concrete query with one result and with none. -/
theorem claim_C7_witness :
    (Gancio.get_place clientA "P" resp200 [{ name := "P" }]).2 = .ok (some { name := "P" }) ∧
    (Gancio.get_place clientA "Q" resp200 []).2 = .ok none := by
  constructor
  · exact (claim_C7 clientA "P" resp200 [{ name := "P" }] { name := "P" } []).2.2
      (by decide) (by rfl)
  · exact (claim_C7 clientA "Q" resp200 [] { name := "P" } []).2.1 (by decide) (by rfl)

/-- Claim C9: a failed login leaves the client's tokens (and all fields)
exactly as they were before the call; the token assignments only run after a
successful response. -/
theorem claim_C9 (c : Gancio) (r : Response) (d : LoginData) (e : GancioError) :
    (Gancio.login c r d).2 = .error e → (Gancio.login c r d).1 = c := by
  intro h
  unfold Gancio.login at h ⊢
  cases hreq : Gancio.request c r <;> simp [hreq] at h ⊢

/-- Witness for C9 at a concrete failing login. -/
theorem claim_C9_witness :
    (Gancio.login clientA resp500 loginDataA).1 = clientA :=
  claim_C9 clientA resp500 loginDataA (GancioError.ofResponse resp500) (by rfl)

/-- Claim C10: an access token equal to the empty string is falsy, so no
`Authorization` header is attached; the header is added exactly when the
stored token is a non-empty string. -/
theorem claim_C10 (url : String) (rt : Option String)
    (hs : List (String × String)) (c : Gancio) (t : String) :
    Gancio.requestHeaders { url := url, access_token := some "", refresh_token := rt } hs
      = hs ∧
    (c.access_token = none → Gancio.requestHeaders c hs = hs) ∧
    (c.access_token = some t → t ≠ "" →
      Gancio.requestHeaders c hs = setKey hs "Authorization" ("Bearer " ++ t)) := by
  refine ⟨?_, ?_, ?_⟩
  · simp [Gancio.requestHeaders]
  · intro h
    simp [Gancio.requestHeaders, h]
  · intro h ht
    simp [Gancio.requestHeaders, h, ht]

/-- Witness for C10 at concrete clients. -/
theorem claim_C10_witness :
    Gancio.requestHeaders
      { url := "http://gancio.test", access_token := some "", refresh_token := none } [] = [] ∧
    Gancio.requestHeaders clientA [] = [] ∧
    Gancio.requestHeaders
      { url := "http://gancio.test", access_token := some "tok", refresh_token := none } []
      = setKey [] "Authorization" ("Bearer " ++ "tok") := by
  refine ⟨?_, ?_, ?_⟩
  · exact (claim_C10 "http://gancio.test" none [] clientA "tok").1
  · exact (claim_C10 "http://gancio.test" none [] clientA "tok").2.1 (by rfl)
  · exact (claim_C10 "http://gancio.test" none []
      { url := "http://gancio.test", access_token := some "tok", refresh_token := none }
      "tok").2.2 (by rfl) (by decide)

/-- Claim C8: no operation other than `login` ever changes the client's
fields (even on error, since none of them assigns to `self`), and `login`
never changes the base URL. -/
theorem claim_C8 (c : Gancio) (r : Response)
    (d s slug q pn content : String) (ld : LoginData) (a : GetEventsArgs)
    (ca : CreateEventArgs) (ua : UpdateEventArgs) (eid pid : Int)
    (ti : Option String) (vis : Option Bool) (results : List Place) :
    (Gancio.setup_db c d s r).1 = c ∧
    (Gancio.setup_restart c r).1 = c ∧
    (Gancio.get_user c r).1 = c ∧
    (Gancio.get_events c a r).1 = c ∧
    (Gancio.get_event c slug r).1 = c ∧
    (Gancio.create_event c ca r).1 = c ∧
    (Gancio.update_event c ua r).1 = c ∧
    (Gancio.delete_event c eid r).1 = c ∧
    (Gancio.confirm_event c eid r).1 = c ∧
    (Gancio.search_place c q r results).1 = c ∧
    (Gancio.get_place c pn r results).1 = c ∧
    (Gancio.get_place_events c pn r).1 = c ∧
    (Gancio.update_page c pid content ti vis r).1 = c ∧
    (Gancio.login c r ld).1.url = c.url := by
  refine ⟨rfl, rfl, rfl, rfl, rfl, rfl, rfl, rfl, rfl, rfl, ?_, ?_, rfl, ?_⟩
  · unfold Gancio.get_place Gancio.search_place
    cases hreq : Gancio.request c r <;> simp [hreq, Except.map]
  · unfold Gancio.get_place_events
    cases hreq : Gancio.request c r <;> simp [hreq]
    split <;> rfl
  · unfold Gancio.login
    cases hreq : Gancio.request c r <;> simp [hreq]

/-- Claim C5: `create_event` and `update_event` serialize a supplied
recurrence dict with `json.dumps` under the `recurrent` key, send supplied
tag and online-location lists under the `[]`-suffixed keys, and attach the
placeholder empty file part exactly when no image is supplied. -/
theorem claim_C5 (a : CreateEventArgs) (b : UpdateEventArgs) (j : Json)
    (ts ol : List String) (img : BytesIO) :
    ("recurrent", Value.str (Json.dumps j)) ∈ createEventData { a with recurrent := some j } ∧
    ("tags[]", Value.strlist ts) ∈ createEventData { a with tags := some ts } ∧
    ("online_locations[]", Value.strlist ol) ∈
      createEventData { a with online_locations := some ol } ∧
    ("recurrent", Value.str (Json.dumps j)) ∈ updateEventData { b with recurrent := some j } ∧
    ("tags[]", Value.strlist ts) ∈ updateEventData { b with tags := some ts } ∧
    ("online_locations[]", Value.strlist ol) ∈
      updateEventData { b with online_locations := some ol } ∧
    (∀ i : Option BytesIO,
      ("placeholder" ∈ (createEventFiles i).map Prod.fst ↔ i = none) ∧
      ("placeholder" ∈ (updateEventFiles i).map Prod.fst ↔ i = none)) ∧
    createEventFiles none = [("placeholder", FilePart.pair "" "")] ∧
    updateEventFiles none = [("placeholder", FilePart.pair "" "")] ∧
    createEventFiles (some img) = [("image", FilePart.buf img)] ∧
    updateEventFiles (some img) = [("image", FilePart.buf img)] := by
  refine ⟨?_, ?_, ?_, ?_, ?_, ?_, ?_, rfl, rfl, rfl, rfl⟩
  · simp [createEventData, optEntry]
  · simp [createEventData, optEntry]
  · simp [createEventData, optEntry]
  · simp [updateEventData, optEntry]
  · simp [updateEventData, optEntry]
  · simp [updateEventData, optEntry]
  · intro i
    cases i <;> simp [createEventFiles, updateEventFiles]

lemma mem_image_files (i : Option BytesIO) :
    ("image" ∈ filesKeys (createEventFiles i) ↔ i.isSome = true) ∧
    ("image" ∈ filesKeys (updateEventFiles i) ↔ i.isSome = true) := by
  cases i <;> simp [createEventFiles, updateEventFiles, filesKeys]

/-- Claim C2, as stated (ranging also over `setup_db`): counterexample:
calling `setup_db` with both optional parameters left unset (so Python's
defaults `'sqlite'` and `'/opt/gancio/db.sqlite'` apply) still sends both
the `dialect` and the `storage` keys in the request payload. -/
theorem claim_C2_counterexample :
    "dialect" ∈ keys (setup_db_db "sqlite" "/opt/gancio/db.sqlite") ∧
    "storage" ∈ keys (setup_db_db "sqlite" "/opt/gancio/db.sqlite") := by
  constructor <;> decide

/-- Claim C2 (amended): for the operations whose optional parameters default
to `None` (`get_events`, `create_event`, `update_event`, `update_page`), a
parameter's payload key (with the `[]` suffix for the list parameters of
event calls, and the `image` file part) appears in the outgoing payload
exactly when the parameter is supplied, and required parameters always
appear; `setup_db`'s parameters have non-`None` defaults: `dialect` always
appears and `storage` appears exactly when the dialect is `'sqlite'`. -/
theorem claim_C2_amended (a : GetEventsArgs) (ca : CreateEventArgs)
    (ua : UpdateEventArgs) (content : String) (ti : Option String)
    (vis : Option Bool) (d s : String) :
    (("start" ∈ keys (getEventsParams a) ↔ a.start.isSome = true) ∧
     ("end" ∈ keys (getEventsParams a) ↔ a.end_.isSome = true) ∧
     ("tags" ∈ keys (getEventsParams a) ↔ a.tags.isSome = true) ∧
     ("places" ∈ keys (getEventsParams a) ↔ a.places.isSome = true) ∧
     ("query" ∈ keys (getEventsParams a) ↔ a.query.isSome = true) ∧
     ("max" ∈ keys (getEventsParams a) ↔ a.max.isSome = true) ∧
     ("page" ∈ keys (getEventsParams a) ↔ a.page.isSome = true) ∧
     ("show_recurrent" ∈ keys (getEventsParams a) ↔ a.show_recurrent.isSome = true) ∧
     ("show_multidate" ∈ keys (getEventsParams a) ↔ a.show_multidate.isSome = true)) ∧
    ("title" ∈ keys (createEventData ca) ∧
     "start_datetime" ∈ keys (createEventData ca) ∧
     "place_name" ∈ keys (createEventData ca) ∧
     "place_address" ∈ keys (createEventData ca) ∧
     ("description" ∈ keys (createEventData ca) ↔ ca.description.isSome = true) ∧
     ("end_datetime" ∈ keys (createEventData ca) ↔ ca.end_datetime.isSome = true) ∧
     ("place_latitude" ∈ keys (createEventData ca) ↔ ca.place_latitude.isSome = true) ∧
     ("place_longitude" ∈ keys (createEventData ca) ↔ ca.place_longitude.isSome = true) ∧
     ("tags[]" ∈ keys (createEventData ca) ↔ ca.tags.isSome = true) ∧
     ("online_locations[]" ∈ keys (createEventData ca) ↔ ca.online_locations.isSome = true) ∧
     ("image_url" ∈ keys (createEventData ca) ↔ ca.image_url.isSome = true) ∧
     ("multidate" ∈ keys (createEventData ca) ↔ ca.multidate.isSome = true) ∧
     ("recurrent" ∈ keys (createEventData ca) ↔ ca.recurrent.isSome = true) ∧
     ("image" ∈ filesKeys (createEventFiles ca.image) ↔ ca.image.isSome = true)) ∧
    ("id" ∈ keys (updateEventData ua) ∧
     ("title" ∈ keys (updateEventData ua) ↔ ua.title.isSome = true) ∧
     ("start_datetime" ∈ keys (updateEventData ua) ↔ ua.start_datetime.isSome = true) ∧
     ("place_name" ∈ keys (updateEventData ua) ↔ ua.place_name.isSome = true) ∧
     ("place_address" ∈ keys (updateEventData ua) ↔ ua.place_address.isSome = true) ∧
     ("description" ∈ keys (updateEventData ua) ↔ ua.description.isSome = true) ∧
     ("end_datetime" ∈ keys (updateEventData ua) ↔ ua.end_datetime.isSome = true) ∧
     ("place_latitude" ∈ keys (updateEventData ua) ↔ ua.place_latitude.isSome = true) ∧
     ("place_longitude" ∈ keys (updateEventData ua) ↔ ua.place_longitude.isSome = true) ∧
     ("tags[]" ∈ keys (updateEventData ua) ↔ ua.tags.isSome = true) ∧
     ("online_locations[]" ∈ keys (updateEventData ua) ↔ ua.online_locations.isSome = true) ∧
     ("image_url" ∈ keys (updateEventData ua) ↔ ua.image_url.isSome = true) ∧
     ("multidate" ∈ keys (updateEventData ua) ↔ ua.multidate.isSome = true) ∧
     ("recurrent" ∈ keys (updateEventData ua) ↔ ua.recurrent.isSome = true) ∧
     ("image" ∈ filesKeys (updateEventFiles ua.image) ↔ ua.image.isSome = true)) ∧
    ("content" ∈ keys (updatePageData content ti vis) ∧
     ("title" ∈ keys (updatePageData content ti vis) ↔ ti.isSome = true) ∧
     ("visible" ∈ keys (updatePageData content ti vis) ↔ vis.isSome = true)) ∧
    ("dialect" ∈ keys (setup_db_db d s) ∧
     ("storage" ∈ keys (setup_db_db d s) ↔ d = "sqlite")) := by
  refine ⟨?_, ?_, ?_, ?_, ?_, ?_⟩
  · simp [getEventsParams, keys_append, List.mem_append, mem_keys_optEntry, isSome_map_eq]
  · simp [createEventData, keys_append, keys_cons, keys_nil, List.mem_append, List.mem_cons,
      mem_keys_optEntry, isSome_map_eq, mem_image_files]
  · simp [updateEventData, keys_append, keys_cons, keys_nil, List.mem_append, List.mem_cons,
      mem_keys_optEntry, isSome_map_eq, mem_image_files]
  · simp [updatePageData, keys_append, keys_cons, keys_nil, List.mem_append, List.mem_cons,
      mem_keys_optEntry, isSome_map_eq]
  · simp [setup_db_db, keys_append, keys_cons, keys_nil, List.mem_append, List.mem_cons]
  · by_cases hd : d = "sqlite" <;>
      simp [setup_db_db, keys_append, keys_cons, keys_nil, List.mem_append, List.mem_cons, hd]

end GancioPy
